import Mathlib

/-!
Verification of the NoTouchPadHotkeys keyboard-hook filter.

The development shallowly embeds the C sources:
* `src/KeyboardHook.cpp` — the filter DLL: the debounce state machine
  (`NoEdgeKeyboardHook`), the replay timer callback (`NoEdgeWindowsKeyTimeout`),
  the timestamp patch (`SetTimerTick`) and `DllMain` timeout initialization;
* `src/unnamed/part_000` — the host loader (`myMain`, `messageLoop`) with its
  startup exit codes.

Machine integers are modelled as `Nat` (with explicit `% 2 ^ 16` where the C
code casts to `WORD`).  The OS timer set of the thread is modelled explicitly
as a list of (id, period) pairs so that cancellation and the
at-most-one-outstanding-timer invariant are provable statements, not modelling
artifacts.
-/

/-! ## Windows constants used by the sources -/

def HC_ACTION : Int := 0

def WM_KEYDOWN : Nat := 0x100

def WM_KEYUP : Nat := 0x101

def WM_SYSKEYDOWN : Nat := 0x104

def WM_SYSKEYUP : Nat := 0x105

def INPUT_KEYBOARD : Nat := 1

def KEYEVENTF_EXTENDEDKEY : Nat := 1

/-- Bit 0 of `KBDLLHOOKSTRUCT.flags`: the event came from an extended key. -/
def LLKHF_EXTENDED : Nat := 1

/-! ## Data model -/

/-- The event payload the OS hands to a low-level keyboard hook
(`KBDLLHOOKSTRUCT`), fields in source order. -/
structure KBDLLHOOKSTRUCT where
  vkCode : Nat
  scanCode : Nat
  flags : Nat
  time : Nat
  dwExtraInfo : Nat
deriving DecidableEq, Repr

/-- The keyboard part of an `INPUT` structure (`KEYBDINPUT`), fields in
source order. -/
structure KEYBDINPUT where
  wVk : Nat
  wScan : Nat
  dwFlags : Nat
  time : Nat
  dwExtraInfo : Nat
deriving DecidableEq, Repr

/-- An `INPUT` structure as passed to `SendInput` (only the keyboard arm of
the union is ever used by the DLL). -/
structure INPUT where
  type : Nat
  ki : KEYBDINPUT
deriving DecidableEq, Repr

/-- `enum KeyboardState` of `KeyboardHook.cpp` lines 33-38. -/
inductive KeyboardState where
  | NoEdgeIdle              -- Not in hot-key sequence
  | NoEdgeWinPressed        -- hot-key has been pressed
  | NoEdgeWaitWinRelease    -- In hot-key sequence
  | NoEdgeIgnoreKeyEvents   -- Ignore key events of hot-key sequence
deriving DecidableEq, Repr

/-- The exported `data` struct of `KeyboardHook.cpp` lines 40-46: the DLL's
sole mutable state. -/
structure HookData where
  LastKey : INPUT
  TimerID : Nat
  Timeout : Nat
  KeyState : KeyboardState
deriving DecidableEq, Repr

/-- The DLL state together with the OS model: the set of timers currently
outstanding for the thread, as (timer id, period) pairs.  Windows serializes
the hook, the timer callback and the message loop on one thread, so a single
such set suffices. -/
structure SysState where
  data : HookData
  timers : List (Nat × Nat)
deriving DecidableEq, Repr

/-! ## OS primitives used by the DLL -/

/-- Models `SetTimer(NULL, 0, timeout, cb)`: the OS picks a fresh timer id
(parameter `fresh`, nonzero on success, 0 on resource exhaustion), arms the
timer and returns the id. -/
def SetTimer (fresh : Nat) (timeout : Nat) (timers : List (Nat × Nat)) :
    Nat × List (Nat × Nat) :=
  if fresh ≠ 0 then (fresh, (fresh, timeout) :: timers) else (0, timers)

/-- Models `KillTimer(NULL, id)`: removes the timer with the given id from
the outstanding set (a no-op when no such timer is outstanding). -/
def KillTimer (id : Nat) (timers : List (Nat × Nat)) : List (Nat × Nat) :=
  timers.filter (fun t => t.1 != id)

/-- Models the return value of `CallNextHookEx` when the hook forwards an
event down the chain; the sentinel for a consumed event is `-1`, so we
represent forwarding by `0`. -/
def CallNextHookExResult : Int := 0

/-! ## The filter DLL (`src/KeyboardHook.cpp`) -/

/-- `NoEdgeWindowsKeyTimeout` (`KeyboardHook.cpp` lines 53-56): the timer
callback.  Returns the list of events passed to `SendInput`; the body reads
but never writes the DLL state. -/
def NoEdgeWindowsKeyTimeout (d : HookData) : List INPUT :=
  if d.KeyState = KeyboardState.NoEdgeWinPressed then [d.LastKey] else []

/-- `SetTimerTick` (`KeyboardHook.cpp` lines 64-66): overwrite the time
component of the prepared `INPUT` structure. -/
def SetTimerTick (tick : Nat) (d : HookData) : HookData :=
  { d with LastKey := { d.LastKey with ki := { d.LastKey.ki with time := tick } } }

/-- The statements under the `case NoEdgeIgnoreKeyEvents:` label
(`KeyboardHook.cpp` lines 101-104).  In the C source this code is reached
both directly (when `KeyState == NoEdgeIgnoreKeyEvents`) and by fallthrough
from the `NoEdgeWinPressed` case after `KeyState` has been set to
`NoEdgeIgnoreKeyEvents`, because the case label sits inside that `if` body. -/
def ignoreCaseBody (wp : Nat) (hs : KBDLLHOOKSTRUCT) (d : HookData) :
    Int × HookData :=
  if wp = WM_KEYUP ∧ hs.scanCode = 0x5b ∧ hs.vkCode = 0x5b then
    (-1, { d with KeyState := KeyboardState.NoEdgeIdle })
  else
    (-1, d)

/-- `NoEdgeKeyboardHook` (`KeyboardHook.cpp` lines 79-116): the low-level
keyboard hook procedure.  `fresh` is the timer id the OS would allocate if
`SetTimer` is reached.  Returns the hook result (`-1` = consumed,
`CallNextHookExResult` = forwarded) and the new state. -/
def NoEdgeKeyboardHook (code : Int) (wp : Nat) (hs : KBDLLHOOKSTRUCT)
    (fresh : Nat) (s : SysState) : Int × SysState :=
  if code = HC_ACTION then
    match s.data.KeyState with
    | KeyboardState.NoEdgeIdle =>
        if wp = WM_KEYDOWN ∧ hs.scanCode = 0x5b ∧ hs.vkCode = 0x5b then
          let lastKey : INPUT :=
            { type := INPUT_KEYBOARD
              ki := { dwExtraInfo := hs.dwExtraInfo
                      dwFlags := KEYEVENTF_EXTENDEDKEY
                      time := hs.time
                      wScan := hs.scanCode % 2 ^ 16   -- (WORD) cast
                      wVk := hs.vkCode % 2 ^ 16 } }   -- (WORD) cast
          let st := SetTimer fresh s.data.Timeout s.timers
          (-1, { data := { s.data with
                            KeyState := KeyboardState.NoEdgeWinPressed
                            LastKey := lastKey
                            TimerID := st.1 }
                 timers := st.2 })
        else
          (CallNextHookExResult, s)
    | KeyboardState.NoEdgeWinPressed =>
        let timers :=
          if s.data.TimerID ≠ 0 then KillTimer s.data.TimerID s.timers
          else s.timers
        if wp ≠ WM_KEYDOWN ∨ hs.scanCode ≠ 0x5b ∨ hs.vkCode ≠ 0x5b then
          let ib := ignoreCaseBody wp hs
            { s.data with KeyState := KeyboardState.NoEdgeIgnoreKeyEvents }
          (ib.1, { data := ib.2, timers := timers })
        else
          (CallNextHookExResult,
           { data := { s.data with KeyState := KeyboardState.NoEdgeWaitWinRelease }
             timers := timers })
    | KeyboardState.NoEdgeIgnoreKeyEvents =>
        let ib := ignoreCaseBody wp hs s.data
        (ib.1, { s with data := ib.2 })
    | KeyboardState.NoEdgeWaitWinRelease =>
        if wp = WM_KEYUP ∧ hs.scanCode = 0x5b ∧ hs.vkCode = 0x5b then
          (CallNextHookExResult,
           { s with data := { s.data with KeyState := KeyboardState.NoEdgeIdle } })
        else
          (CallNextHookExResult, s)
  else
    (CallNextHookExResult, s)

/-! ## DLL initialization (`DllMain`, `KeyboardHook.cpp` lines 123-143) -/

/-- Decimal digit run of C `atoi`, most significant first. -/
def atoiDigits : List Char → Nat → Nat
  | [], acc => acc
  | c :: cs, acc =>
      if c.isDigit then atoiDigits cs (acc * 10 + (c.toNat - 48)) else acc

/-- C `atoi`: skip leading whitespace, optional sign, then decimal digits
(stopping at the first non-digit; 0 when there is none). -/
def atoi (s : String) : Int :=
  let cs := s.data.dropWhile (fun c =>
    c = ' ' ∨ c = '\t' ∨ c = '\n' ∨ c = '\x0b' ∨ c = '\x0c' ∨ c = '\r')
  match cs with
  | '-' :: rest => -(atoiDigits rest 0 : Int)
  | '+' :: rest => (atoiDigits rest 0 : Int)
  | _ => (atoiDigits cs 0 : Int)

/-- The `NoEdgeTimeout` computation of `DllMain` (`KeyboardHook.cpp` lines
129-136).  `cfg` is the value of environment variable `NoEdgeTimeout`
(`none` when unset); `GetEnvironmentVariableA` returns 0 for an unset or
empty variable and at least 5 for any value of length ≥ 5 (including values
that do not fit the 100-byte buffer), so those cases take the default. -/
def initTimeout (cfg : Option String) : Nat :=
  match cfg with
  | none => 100
  | some s =>
      let len := s.length
      if len = 0 ∨ 5 ≤ len then 100
      else
        let v : Int := atoi s
        if v < 32 then 32
        else if v > 1024 then 1024
        else v.toNat

/-- The globals of the DLL after the loader zero-initializes them and
`DllMain` runs its `DLL_PROCESS_ATTACH` branch. -/
def DllMain (cfg : Option String) : HookData :=
  { LastKey := { type := 0
                 ki := { wVk := 0, wScan := 0, dwFlags := 0, time := 0
                         dwExtraInfo := 0 } }
    TimerID := 0
    Timeout := initTimeout cfg
    KeyState := KeyboardState.NoEdgeIdle }

/-- Whole-system state right after the DLL is attached: no timer outstanding. -/
def initialSysState (cfg : Option String) : SysState :=
  { data := DllMain cfg, timers := [] }

/-! ## System steps and observable traces -/

/-- Delivery of a `WM_TIMER` message for timer `id`: `DispatchMessage`
invokes `NoEdgeWindowsKeyTimeout`.  A timer armed by `SetTimer` repeats
until killed, so the outstanding set is unchanged; the callback may also run
on a stale, already-killed timer message, which its state guard handles. -/
def timerFire (_id : Nat) (s : SysState) : List INPUT × SysState :=
  (NoEdgeWindowsKeyTimeout s.data, s)

/-- One externally driven event: a keyboard event offered to the hook
(`fresh` = the timer id `SetTimer` would hand out), or a timer firing. -/
inductive SysEvent where
  | key (code : Int) (wp : Nat) (hs : KBDLLHOOKSTRUCT) (fresh : Nat)
  | timer (id : Nat)
deriving DecidableEq, Repr

/-- Observable outcome of one step: the hook consumed the event, the hook
forwarded it down the chain, or the timer callback injected a synthetic
input. -/
inductive Obs where
  | suppressed (wp : Nat) (hs : KBDLLHOOKSTRUCT)
  | forwarded (wp : Nat) (hs : KBDLLHOOKSTRUCT)
  | injected (inp : INPUT)
deriving DecidableEq, Repr

/-- One system step with its observable output. -/
def sysStep (s : SysState) : SysEvent → List Obs × SysState
  | SysEvent.key code wp hs fresh =>
      let r := NoEdgeKeyboardHook code wp hs fresh s
      (if r.1 = -1 then [Obs.suppressed wp hs] else [Obs.forwarded wp hs], r.2)
  | SysEvent.timer id =>
      let r := timerFire id s
      (r.1.map Obs.injected, r.2)

/-- Run a sequence of system events, concatenating observations. -/
def run (s : SysState) : List SysEvent → List Obs × SysState
  | [] => ([], s)
  | e :: es =>
      let r := sysStep s e
      let rest := run r.2 es
      (r.1 ++ rest.1, rest.2)

/-! ## The host loader (`src/unnamed/part_000`) -/

/-- Outcome of one `GetMessage` call in `messageLoop`: a retrieved message
(`> 0`, with its `WM_TIMER`-ness and `time` field), the quit signal (`0`),
or an error (`< 0`, which the loop ignores and continues). -/
inductive MsgResult where
  | message (isTimer : Bool) (time : Nat)
  | quit
  | failure
deriving DecidableEq, Repr

/-- `messageLoop` (`part_000` lines 36-49): deliver messages until
`GetMessage` returns 0; a `WM_TIMER` message first feeds its `time` into
`SetTimerTick`.  `some` = the loop broke on the quit signal, `none` = the
supplied message prefix was exhausted without quitting (the real loop would
stay blocked in `GetMessage`). -/
def messageLoop (d : HookData) : List MsgResult → Option HookData
  | [] => none
  | MsgResult.quit :: _ => some d
  | MsgResult.message isTimer t :: rest =>
      messageLoop (if isTimer then SetTimerTick t d else d) rest
  | MsgResult.failure :: rest => messageLoop d rest

/-- Success or failure of each fallible startup step of `myMain`
(`part_000` lines 54-120). -/
structure HostEnv where
  moduleLoaded : Bool              -- LoadLibrary("NoEdgeShortcuts.dll")
  getFunctionAddressResolved : Bool -- GetProcAddress(hi, "GetFunctionAddress")
  hookResolved : Bool              -- getFunctionAddress(0)
  setTimerTickResolved : Bool      -- getFunctionAddress(1)
  getDllInfoResolved : Bool        -- getFunctionAddress(2)
  hookInstalled : Bool             -- SetWindowsHookExA(WH_KEYBOARD_LL, ...)
deriving DecidableEq, Repr

/-- `myMain` (`part_000` lines 54-120): the returned value is the process
exit code (`none` = still running in the message loop).  Priority elevation
and `VirtualLock` are best-effort and cannot change the exit code, so they
do not appear. -/
def myMain (env : HostEnv) (msgs : List MsgResult) (d : HookData) : Option Nat :=
  if ¬env.moduleLoaded then some 1
  else if ¬env.getFunctionAddressResolved then some 2
  else if ¬env.hookResolved then some 2
  else if ¬env.setTimerTickResolved then some 2
  else if ¬env.getDllInfoResolved then some 2
  else if ¬env.hookInstalled then some 3
  else (messageLoop d msgs).map (fun _ => 0)

/-! ## Spec-side definitions (for refinement comparison only) -/

/-- The clamping function as the spec words it: "integer milliseconds,
clamped to [32,1024]". -/
def clampSpec (v : Int) : Nat :=
  if v < 32 then 32 else if v > 1024 then 1024 else v.toNat

/-! ## Concrete example states used by witnesses and counterexamples -/

/-- A left-Windows key event payload (extended flag set, as hardware sends it). -/
def trigHs : KBDLLHOOKSTRUCT :=
  { vkCode := 0x5b, scanCode := 0x5b, flags := 1, time := 11, dwExtraInfo := 2 }

/-- An unrelated key event payload (the A key). -/
def otherHs : KBDLLHOOKSTRUCT :=
  { vkCode := 0x41, scanCode := 0x1e, flags := 0, time := 12, dwExtraInfo := 0 }

/-- State reached from a fresh load by one trigger key-down (timer id 7). -/
def pressedState : SysState :=
  (NoEdgeKeyboardHook HC_ACTION WM_KEYDOWN trigHs 7 (initialSysState none)).2

/-- A state in the `NoEdgeIgnoreKeyEvents` phase of a suppressed chord. -/
def ignState : SysState :=
  (NoEdgeKeyboardHook HC_ACTION WM_KEYDOWN otherHs 0 pressedState).2

/-! ## Claim theorems -/

/-- C8: for every tick value and every state, `SetTimerTick` overwrites only
the timestamp field of the pending key event; the other pending-event fields,
the state, the timer handle and the timeout are unchanged (so calling it with
no candidate pending is a harmless stale write). -/
theorem C8_set_timer_tick_frame (tick : Nat) (d : HookData) :
    (SetTimerTick tick d).LastKey.ki.time = tick
    ∧ (SetTimerTick tick d).LastKey.ki.wVk = d.LastKey.ki.wVk
    ∧ (SetTimerTick tick d).LastKey.ki.wScan = d.LastKey.ki.wScan
    ∧ (SetTimerTick tick d).LastKey.ki.dwFlags = d.LastKey.ki.dwFlags
    ∧ (SetTimerTick tick d).LastKey.ki.dwExtraInfo = d.LastKey.ki.dwExtraInfo
    ∧ (SetTimerTick tick d).LastKey.type = d.LastKey.type
    ∧ (SetTimerTick tick d).KeyState = d.KeyState
    ∧ (SetTimerTick tick d).TimerID = d.TimerID
    ∧ (SetTimerTick tick d).Timeout = d.Timeout := by
  simp [SetTimerTick]

/-- C5: the timer callback injects exactly the captured pending event if and
only if the state is `NoEdgeWinPressed` at fire time, injects nothing
otherwise, and never modifies the state (the whole system state is unchanged
by a timer delivery). -/
theorem C5_timer_callback (id : Nat) (s : SysState) :
    ((timerFire id s).1 = [s.data.LastKey]
        ↔ s.data.KeyState = KeyboardState.NoEdgeWinPressed)
    ∧ ((timerFire id s).1 = []
        ↔ s.data.KeyState ≠ KeyboardState.NoEdgeWinPressed)
    ∧ (timerFire id s).2 = s := by
  refine ⟨?_, ?_, rfl⟩ <;> simp [timerFire, NoEdgeWindowsKeyTimeout]

/-- C6: while the state is `NoEdgeIgnoreKeyEvents`, every event offered to
the hook is suppressed (result `-1`); a trigger key-up (`WM_KEYUP`, scan and
virtual-key code `0x5b`) returns the state to `NoEdgeIdle`, and every other
event leaves it in `NoEdgeIgnoreKeyEvents`. -/
theorem C6_suppressing_sequence (s : SysState) (wp : Nat)
    (hs : KBDLLHOOKSTRUCT) (fresh : Nat)
    (h : s.data.KeyState = KeyboardState.NoEdgeIgnoreKeyEvents) :
    (NoEdgeKeyboardHook HC_ACTION wp hs fresh s).1 = -1
    ∧ (wp = WM_KEYUP ∧ hs.scanCode = 0x5b ∧ hs.vkCode = 0x5b →
        (NoEdgeKeyboardHook HC_ACTION wp hs fresh s).2.data.KeyState
          = KeyboardState.NoEdgeIdle)
    ∧ (¬(wp = WM_KEYUP ∧ hs.scanCode = 0x5b ∧ hs.vkCode = 0x5b) →
        (NoEdgeKeyboardHook HC_ACTION wp hs fresh s).2.data.KeyState
          = KeyboardState.NoEdgeIgnoreKeyEvents) := by
  by_cases hc : wp = WM_KEYUP ∧ hs.scanCode = 0x5b ∧ hs.vkCode = 0x5b <;>
    simp [NoEdgeKeyboardHook, ignoreCaseBody, h, hc]

/-- Witness for C6 at a concrete suppressed-chord state and a trigger key-up. -/
theorem C6_witness :
    ignState.data.KeyState = KeyboardState.NoEdgeIgnoreKeyEvents
    ∧ (NoEdgeKeyboardHook HC_ACTION WM_KEYUP trigHs 0 ignState).1 = -1
    ∧ (NoEdgeKeyboardHook HC_ACTION WM_KEYUP trigHs 0 ignState).2.data.KeyState
        = KeyboardState.NoEdgeIdle :=
  ⟨by decide,
   (C6_suppressing_sequence ignState WM_KEYUP trigHs 0 (by decide)).1,
   (C6_suppressing_sequence ignState WM_KEYUP trigHs 0 (by decide)).2.1
     (by decide)⟩

/-- C10: the state machine matches event kinds exactly.  In
`NoEdgeIgnoreKeyEvents` any event whose kind is not exactly `WM_KEYUP`
(e.g. `WM_SYSKEYUP` of the trigger key) is suppressed with the whole state
unchanged, and in `NoEdgeIdle` any event whose kind is not exactly
`WM_KEYDOWN` (e.g. `WM_SYSKEYDOWN` of the trigger key) is forwarded with the
whole state unchanged — no candidate sequence starts. -/
theorem C10_exact_event_kinds (s : SysState) (wp : Nat)
    (hs : KBDLLHOOKSTRUCT) (fresh : Nat) :
    (s.data.KeyState = KeyboardState.NoEdgeIgnoreKeyEvents → wp ≠ WM_KEYUP →
      (NoEdgeKeyboardHook HC_ACTION wp hs fresh s).1 = -1
      ∧ (NoEdgeKeyboardHook HC_ACTION wp hs fresh s).2 = s)
    ∧ (s.data.KeyState = KeyboardState.NoEdgeIdle → wp ≠ WM_KEYDOWN →
      (NoEdgeKeyboardHook HC_ACTION wp hs fresh s).1 = CallNextHookExResult
      ∧ (NoEdgeKeyboardHook HC_ACTION wp hs fresh s).2 = s) := by
  constructor
  · intro h hwp
    simp only [NoEdgeKeyboardHook, ignoreCaseBody, h, if_pos rfl]
    simp [hwp]
  · intro h hwp
    simp only [NoEdgeKeyboardHook, h, if_pos rfl]
    simp [hwp]

/-- Witness for C10: a `WM_SYSKEYUP` of the trigger key in the suppressing
state and a `WM_SYSKEYDOWN` of the trigger key in the idle state. -/
theorem C10_witness :
    ignState.data.KeyState = KeyboardState.NoEdgeIgnoreKeyEvents
    ∧ WM_SYSKEYUP ≠ WM_KEYUP
    ∧ (NoEdgeKeyboardHook HC_ACTION WM_SYSKEYUP trigHs 0 ignState).2 = ignState
    ∧ (initialSysState none).data.KeyState = KeyboardState.NoEdgeIdle
    ∧ WM_SYSKEYDOWN ≠ WM_KEYDOWN
    ∧ (NoEdgeKeyboardHook HC_ACTION WM_SYSKEYDOWN trigHs 0
        (initialSysState none)).2 = initialSysState none :=
  ⟨by decide, by decide,
   ((C10_exact_event_kinds ignState WM_SYSKEYUP trigHs 0).1
      (by decide) (by decide)).2,
   by decide, by decide,
   ((C10_exact_event_kinds (initialSysState none) WM_SYSKEYDOWN trigHs 0).2
      (by decide) (by decide)).2⟩

/-- C1 counterexample: in `NoEdgeWinPressed` a trigger key-up does not leave
the machine in `NoEdgeIgnoreKeyEvents`.  Because the
`case NoEdgeIgnoreKeyEvents:` label sits inside the `NoEdgeWinPressed`
branch, the very same invocation re-tests the event and, as it is a trigger
key-up, moves the state on to `NoEdgeIdle`. -/
theorem C1_counterexample :
    pressedState.data.KeyState = KeyboardState.NoEdgeWinPressed
    ∧ (NoEdgeKeyboardHook HC_ACTION WM_KEYUP trigHs 0 pressedState).2.data.KeyState
        = KeyboardState.NoEdgeIdle
    ∧ (NoEdgeKeyboardHook HC_ACTION WM_KEYUP trigHs 0 pressedState).2.data.KeyState
        ≠ KeyboardState.NoEdgeIgnoreKeyEvents := by decide

/-- C1 (amended): for every event processed by the hook in
`NoEdgeWinPressed` the outstanding timer is cancelled first (`KillTimer`
whenever the stored handle is nonzero); a fresh trigger key-down moves to
`NoEdgeWaitWinRelease` and is forwarded; a trigger key-up is suppressed and
falls through `NoEdgeIgnoreKeyEvents` directly back to `NoEdgeIdle` in the
same invocation; every other event is suppressed and moves to
`NoEdgeIgnoreKeyEvents`. -/
theorem C1_candidate_pressed_step (s : SysState) (wp : Nat)
    (hs : KBDLLHOOKSTRUCT) (fresh : Nat)
    (h : s.data.KeyState = KeyboardState.NoEdgeWinPressed) :
    (NoEdgeKeyboardHook HC_ACTION wp hs fresh s).2.timers
      = (if s.data.TimerID ≠ 0 then KillTimer s.data.TimerID s.timers
         else s.timers)
    ∧ (wp = WM_KEYDOWN ∧ hs.scanCode = 0x5b ∧ hs.vkCode = 0x5b →
        (NoEdgeKeyboardHook HC_ACTION wp hs fresh s).2.data.KeyState
          = KeyboardState.NoEdgeWaitWinRelease
        ∧ (NoEdgeKeyboardHook HC_ACTION wp hs fresh s).1 = CallNextHookExResult)
    ∧ (wp = WM_KEYUP ∧ hs.scanCode = 0x5b ∧ hs.vkCode = 0x5b →
        (NoEdgeKeyboardHook HC_ACTION wp hs fresh s).2.data.KeyState
          = KeyboardState.NoEdgeIdle
        ∧ (NoEdgeKeyboardHook HC_ACTION wp hs fresh s).1 = -1)
    ∧ (¬(wp = WM_KEYDOWN ∧ hs.scanCode = 0x5b ∧ hs.vkCode = 0x5b) →
       ¬(wp = WM_KEYUP ∧ hs.scanCode = 0x5b ∧ hs.vkCode = 0x5b) →
        (NoEdgeKeyboardHook HC_ACTION wp hs fresh s).2.data.KeyState
          = KeyboardState.NoEdgeIgnoreKeyEvents
        ∧ (NoEdgeKeyboardHook HC_ACTION wp hs fresh s).1 = -1) := by
  by_cases h1 : wp = WM_KEYDOWN <;> by_cases h4 : wp = WM_KEYUP <;>
  by_cases h2 : hs.scanCode = 0x5b <;> by_cases h3 : hs.vkCode = 0x5b <;>
    simp_all [NoEdgeKeyboardHook, ignoreCaseBody, WM_KEYDOWN, WM_KEYUP]

/-- Witness for C1 (amended): the A key arriving while a trigger press is
pending kills the timer, suppresses the event and enters
`NoEdgeIgnoreKeyEvents`. -/
theorem C1_witness :
    pressedState.data.KeyState = KeyboardState.NoEdgeWinPressed
    ∧ ¬(WM_KEYDOWN = WM_KEYDOWN ∧ otherHs.scanCode = 0x5b
        ∧ otherHs.vkCode = 0x5b)
    ∧ ¬(WM_KEYDOWN = WM_KEYUP ∧ otherHs.scanCode = 0x5b
        ∧ otherHs.vkCode = 0x5b)
    ∧ (NoEdgeKeyboardHook HC_ACTION WM_KEYDOWN otherHs 0
         pressedState).2.data.KeyState = KeyboardState.NoEdgeIgnoreKeyEvents
    ∧ (NoEdgeKeyboardHook HC_ACTION WM_KEYDOWN otherHs 0 pressedState).1 = -1 :=
  ⟨by decide, by decide, by decide,
   ((C1_candidate_pressed_step pressedState WM_KEYDOWN otherHs 0
       (by decide)).2.2.2 (by decide) (by decide)).1,
   ((C1_candidate_pressed_step pressedState WM_KEYDOWN otherHs 0
       (by decide)).2.2.2 (by decide) (by decide)).2⟩

/-- C4 counterexample: the hook does not copy the event's extended-key flag.
For a trigger key-down whose `flags` field has the extended bit clear, the
buffered event still carries `KEYEVENTF_EXTENDEDKEY`, because the code sets
that constant unconditionally (`KeyboardHook.cpp` line 88). -/
theorem C4_counterexample :
    ((NoEdgeKeyboardHook HC_ACTION WM_KEYDOWN
        { vkCode := 0x5b, scanCode := 0x5b, flags := 0, time := 3,
          dwExtraInfo := 4 } 7
        (initialSysState none)).2.data.LastKey.ki.dwFlags
      &&& KEYEVENTF_EXTENDEDKEY) = 1
    ∧ (({ vkCode := 0x5b, scanCode := 0x5b, flags := 0, time := 3,
          dwExtraInfo := 4 : KBDLLHOOKSTRUCT }).flags &&& LLKHF_EXTENDED) = 0 := by
  decide

/-- C4 (amended): a trigger key-down in `NoEdgeIdle` is consumed (`-1`), the
state becomes `NoEdgeWinPressed`, the pending buffer receives the event's
virtual-key code, scan code, extra data and timestamp while its flags field
is set unconditionally to `KEYEVENTF_EXTENDEDKEY`, and a one-shot timer of
`Timeout` milliseconds is armed under the stored handle. -/
theorem C4_idle_trigger_down (s : SysState) (hs : KBDLLHOOKSTRUCT)
    (fresh : Nat) (h : s.data.KeyState = KeyboardState.NoEdgeIdle)
    (hscan : hs.scanCode = 0x5b) (hvk : hs.vkCode = 0x5b)
    (hfresh : fresh ≠ 0) :
    (NoEdgeKeyboardHook HC_ACTION WM_KEYDOWN hs fresh s).1 = -1
    ∧ (NoEdgeKeyboardHook HC_ACTION WM_KEYDOWN hs fresh s).2.data.KeyState
        = KeyboardState.NoEdgeWinPressed
    ∧ (NoEdgeKeyboardHook HC_ACTION WM_KEYDOWN hs fresh s).2.data.LastKey
        = { type := INPUT_KEYBOARD
            ki := { wVk := 0x5b, wScan := 0x5b
                    dwFlags := KEYEVENTF_EXTENDEDKEY
                    time := hs.time, dwExtraInfo := hs.dwExtraInfo } }
    ∧ (NoEdgeKeyboardHook HC_ACTION WM_KEYDOWN hs fresh s).2.data.TimerID = fresh
    ∧ (NoEdgeKeyboardHook HC_ACTION WM_KEYDOWN hs fresh s).2.timers
        = (fresh, s.data.Timeout) :: s.timers
    ∧ (NoEdgeKeyboardHook HC_ACTION WM_KEYDOWN hs fresh s).2.data.Timeout
        = s.data.Timeout := by
  simp [NoEdgeKeyboardHook, SetTimer, h, hscan, hvk, hfresh]

/-- Witness for C4 (amended) at a concrete trigger key-down from the freshly
attached state. -/
theorem C4_witness :
    (initialSysState none).data.KeyState = KeyboardState.NoEdgeIdle
    ∧ trigHs.scanCode = 0x5b ∧ trigHs.vkCode = 0x5b ∧ (7 : Nat) ≠ 0
    ∧ (NoEdgeKeyboardHook HC_ACTION WM_KEYDOWN trigHs 7
         (initialSysState none)).2.timers = [(7, 100)] :=
  ⟨by decide, by decide, by decide, by decide, by
    have := (C4_idle_trigger_down (initialSysState none) trigHs 7
      (by decide) (by decide) (by decide) (by decide)).2.2.2.2.1
    simpa using this⟩

/-- C3 counterexample: the stored timeout is not the clamped integer value
for every configuration string.  Any value of five or more characters takes
the default instead: `NoEdgeTimeout=10000` stores 100, while clamping 10000
to [32,1024] would give 1024. -/
theorem C3_counterexample :
    initTimeout (some "10000") = 100
    ∧ clampSpec (atoi "10000") = 1024
    ∧ initTimeout (some "10000") ≠ clampSpec (atoi "10000") := by
  decide

/-- C3 (amended): an unset or empty `NoEdgeTimeout` gives the default 100;
a value of one to four characters is parsed by `atoi` and clamped to
[32,1024]; a value of five or more characters falls back to the default 100.
In particular 10 clamps to 32, 5000 clamps to 1024 and 200 is kept. -/
theorem C3_timeout_clamping :
    initTimeout none = 100
    ∧ initTimeout (some "") = 100
    ∧ (∀ s : String, 1 ≤ s.length → s.length ≤ 4 →
        initTimeout (some s) = clampSpec (atoi s))
    ∧ (∀ s : String, 5 ≤ s.length → initTimeout (some s) = 100)
    ∧ initTimeout (some "10") = 32
    ∧ initTimeout (some "5000") = 1024
    ∧ initTimeout (some "200") = 200 := by
  refine ⟨rfl, rfl, ?_, ?_, by decide, by decide, by decide⟩
  · intro s hle hge
    have hcond : ¬(s.length = 0 ∨ 5 ≤ s.length) := by omega
    simp only [initTimeout, clampSpec, hcond, if_false]
  · intro s h5
    simp only [initTimeout]
    rw [if_pos (Or.inr h5)]

/-- Witness for C3 (amended): the in-range value 200 is honored exactly. -/
theorem C3_witness :
    1 ≤ ("200" : String).length ∧ ("200" : String).length ≤ 4
    ∧ initTimeout (some "200") = clampSpec (atoi "200") :=
  ⟨by decide, by decide,
   C3_timeout_clamping.2.2.1 "200" (by decide) (by decide)⟩

/-! ## The timer invariant (claim C2) -/

/-- The provable timer invariant: either no timer is outstanding, or exactly
the timer stored in `TimerID` is outstanding, its handle is nonzero, and the
machine is in `NoEdgeWinPressed`. -/
def TimerInvariant (s : SysState) : Prop :=
  s.timers = []
  ∨ (s.timers.map Prod.fst = [s.data.TimerID]
     ∧ s.data.TimerID ≠ 0
     ∧ s.data.KeyState = KeyboardState.NoEdgeWinPressed)

/-- Killing the only outstanding timer empties the outstanding set. -/
theorem killTimer_of_map_fst (id : Nat) (l : List (Nat × Nat))
    (h : l.map Prod.fst = [id]) : KillTimer id l = [] := by
  cases l with
  | nil => simp [KillTimer]
  | cons a rest =>
    simp only [List.map_cons, List.cons.injEq] at h
    obtain ⟨h1, h2⟩ := h
    cases rest with
    | nil => simp [KillTimer, h1]
    | cons b bs => simp at h2

/-- The hook callback preserves the timer invariant. -/
theorem hook_timerInvariant (code : Int) (wp : Nat) (hs : KBDLLHOOKSTRUCT)
    (fresh : Nat) (s : SysState) (h : TimerInvariant s) :
    TimerInvariant (NoEdgeKeyboardHook code wp hs fresh s).2 := by
  by_cases hcode : code = HC_ACTION
  case neg => simpa [NoEdgeKeyboardHook, hcode] using h
  obtain ⟨⟨lk, tid, tmo, ks⟩, tms⟩ := s
  cases ks
  · -- NoEdgeIdle
    have htm : tms = [] := by
      rcases h with h' | ⟨_, _, h3⟩
      · exact h'
      · simp at h3
    subst htm
    by_cases hc : wp = WM_KEYDOWN ∧ hs.scanCode = 0x5b ∧ hs.vkCode = 0x5b <;>
      by_cases hf : fresh = 0 <;>
        simp [NoEdgeKeyboardHook, SetTimer, TimerInvariant, hcode, hc, hf]
  · -- NoEdgeWinPressed
    have htm' : (if tid ≠ 0 then KillTimer tid tms else tms) = [] := by
      rcases h with h' | ⟨h1, h2, _⟩
      · have h'' : tms = [] := h'
        simp [h'', KillTimer]
      · have h1' : tms.map Prod.fst = [tid] := h1
        have h2' : tid ≠ 0 := h2
        rw [if_pos h2']
        exact killTimer_of_map_fst tid tms h1'
    by_cases hc : wp ≠ WM_KEYDOWN ∨ hs.scanCode ≠ 0x5b ∨ hs.vkCode ≠ 0x5b <;>
      simp [NoEdgeKeyboardHook, ignoreCaseBody, TimerInvariant, hcode, hc, htm']
  · -- NoEdgeWaitWinRelease
    have htm : tms = [] := by
      rcases h with h' | ⟨_, _, h3⟩
      · exact h'
      · simp at h3
    subst htm
    by_cases hc : wp = WM_KEYUP ∧ hs.scanCode = 0x5b ∧ hs.vkCode = 0x5b <;>
      simp [NoEdgeKeyboardHook, TimerInvariant, hcode, hc]
  · -- NoEdgeIgnoreKeyEvents
    have htm : tms = [] := by
      rcases h with h' | ⟨_, _, h3⟩
      · exact h'
      · simp at h3
    subst htm
    simp [NoEdgeKeyboardHook, ignoreCaseBody, TimerInvariant, hcode]

/-- C2 counterexample: after a pending trigger press is superseded by the A
key, the stored timer handle is still nonzero although the state is no
longer `NoEdgeWinPressed` — `KillTimer` is called but `TimerID` is never
reset to 0 (`KeyboardHook.cpp` lines 96-108). -/
theorem C2_counterexample :
    ignState.data.TimerID ≠ 0
    ∧ ignState.data.KeyState ≠ KeyboardState.NoEdgeWinPressed := by decide

/-- C2 (amended): at most one timer is ever outstanding, and a timer is
outstanding only while the state is `NoEdgeWinPressed` (with `TimerID`
holding its handle); the `TimerID` variable itself may keep a stale nonzero
value in other states.  The invariant holds at initialization and is
preserved by the hook callback, by timer delivery and by the timestamp
patch. -/
theorem C2_timer_invariant (s : SysState) (h : TimerInvariant s) :
    (∀ cfg, TimerInvariant (initialSysState cfg))
    ∧ (∀ code wp hs fresh, TimerInvariant (NoEdgeKeyboardHook code wp hs fresh s).2)
    ∧ (∀ id, TimerInvariant (timerFire id s).2)
    ∧ (∀ tick, TimerInvariant { s with data := SetTimerTick tick s.data })
    ∧ s.timers.length ≤ 1 := by
  refine ⟨fun cfg => Or.inl rfl,
          fun code wp hs fresh => hook_timerInvariant code wp hs fresh s h,
          fun id => h,
          fun tick => ?_, ?_⟩
  · rcases h with h' | ⟨h1, h2, h3⟩
    · exact Or.inl h'
    · exact Or.inr ⟨by simpa [SetTimerTick] using h1,
                    by simpa [SetTimerTick] using h2,
                    by simpa [SetTimerTick] using h3⟩
  · rcases h with h' | ⟨h1, _, _⟩
    · simp [h']
    · have hlen := congrArg List.length h1
      simp at hlen
      omega

/-- Witness for C2 at the concrete pending-candidate state (one outstanding
timer with handle 7). -/
theorem C2_witness :
    TimerInvariant pressedState
    ∧ TimerInvariant
        (NoEdgeKeyboardHook HC_ACTION WM_KEYDOWN otherHs 0 pressedState).2
    ∧ pressedState.timers.length ≤ 1 :=
  ⟨by unfold TimerInvariant; decide,
   (C2_timer_invariant pressedState
      (by unfold TimerInvariant; decide)).2.1 HC_ACTION WM_KEYDOWN otherHs 0,
   (C2_timer_invariant pressedState
      (by unfold TimerInvariant; decide)).2.2.2.2⟩

/-! ## Host loader exit codes (claim C9) -/

/-- `messageLoop` breaks out (with a result) exactly when the supplied
`GetMessage` outcomes contain the quit signal. -/
theorem messageLoop_isSome_iff (msgs : List MsgResult) :
    ∀ d, (messageLoop d msgs).isSome = true ↔ MsgResult.quit ∈ msgs := by
  induction msgs with
  | nil => intro d; simp [messageLoop]
  | cons m rest ih =>
    intro d
    cases m <;> simp [messageLoop, ih]

/-- C9: on fatal startup failure the host exits with a distinct code per
failure site — 1 when the hook module cannot be loaded, 2 when a required
entry point (the resolver or any of the three resolved functions) is
missing, 3 when hook installation is rejected — and with code 0 when the
message loop sees the quit signal (without a quit signal it keeps running). -/
theorem C9_exit_codes (env : HostEnv) (msgs : List MsgResult) (d : HookData) :
    (env.moduleLoaded = false → myMain env msgs d = some 1)
    ∧ (env.moduleLoaded = true →
        (env.getFunctionAddressResolved = false ∨ env.hookResolved = false
         ∨ env.setTimerTickResolved = false ∨ env.getDllInfoResolved = false) →
        myMain env msgs d = some 2)
    ∧ (env.moduleLoaded = true → env.getFunctionAddressResolved = true →
       env.hookResolved = true → env.setTimerTickResolved = true →
       env.getDllInfoResolved = true → env.hookInstalled = false →
        myMain env msgs d = some 3)
    ∧ (env.moduleLoaded = true → env.getFunctionAddressResolved = true →
       env.hookResolved = true → env.setTimerTickResolved = true →
       env.getDllInfoResolved = true → env.hookInstalled = true →
        (MsgResult.quit ∈ msgs → myMain env msgs d = some 0)
        ∧ (MsgResult.quit ∉ msgs → myMain env msgs d = none)) := by
  refine ⟨?_, ?_, ?_, ?_⟩
  · intro h1
    simp [myMain, h1]
  · intro h1 h2
    rcases h2 with h2 | h2 | h2 | h2 <;>
      by_cases hg : env.getFunctionAddressResolved <;>
      by_cases hh : env.hookResolved <;>
      by_cases hst : env.setTimerTickResolved <;>
        simp_all [myMain]
  · intro h1 h2 h3 h4 h5 h6
    simp [myMain, h1, h2, h3, h4, h5, h6]
  · intro h1 h2 h3 h4 h5 h6
    constructor
    · intro hq
      obtain ⟨d', hd'⟩ :=
        Option.isSome_iff_exists.mp ((messageLoop_isSome_iff msgs d).mpr hq)
      simp [myMain, h1, h2, h3, h4, h5, h6, hd']
    · intro hq
      have hnone : messageLoop d msgs = none := by
        cases e : messageLoop d msgs with
        | none => rfl
        | some d' =>
            exact absurd ((messageLoop_isSome_iff msgs d).mp (by simp [e])) hq
      simp [myMain, h1, h2, h3, h4, h5, h6, hnone]

/-- Witness for C9: module-load failure exits 1; a quit signal after a fully
successful startup exits 0. -/
theorem C9_witness :
    (HostEnv.mk false true true true true true).moduleLoaded = false
    ∧ myMain (HostEnv.mk false true true true true true) [] (DllMain none)
        = some 1
    ∧ MsgResult.quit ∈ [MsgResult.quit]
    ∧ myMain (HostEnv.mk true true true true true true) [MsgResult.quit]
        (DllMain none) = some 0 :=
  ⟨rfl,
   (C9_exit_codes (HostEnv.mk false true true true true true) []
      (DllMain none)).1 rfl,
   by decide,
   ((C9_exit_codes (HostEnv.mk true true true true true true)
      [MsgResult.quit] (DllMain none)).2.2.2 rfl rfl rfl rfl rfl rfl).1
     (by decide)⟩

/-! ## The tap-replay cycle (claim C7) -/

/-- A trigger key-down offered to the hook at `HC_ACTION`, with payload
fields `f`/`t`/`x` and the timer id `SetTimer` would allocate. -/
def tapDown (f t x fresh : Nat) : SysEvent :=
  SysEvent.key HC_ACTION WM_KEYDOWN
    { vkCode := 0x5b, scanCode := 0x5b, flags := f, time := t,
      dwExtraInfo := x } fresh

/-- A trigger key-up offered to the hook at `HC_ACTION`. -/
def tapUp (f t x : Nat) : SysEvent :=
  SysEvent.key HC_ACTION WM_KEYUP
    { vkCode := 0x5b, scanCode := 0x5b, flags := f, time := t,
      dwExtraInfo := x } 0

/-- One solitary-tap cycle: trigger down, the debounce timer elapses, the
injected replay echoes back through the hook as a key-down, trigger up. -/
def tapCycle (f0 t0 x0 fE tE xE fU tU xU fresh : Nat) : List SysEvent :=
  [tapDown f0 t0 x0 fresh, SysEvent.timer fresh, tapDown fE tE xE 0,
   tapUp fU tU xU]

/-- The observable output of one tap cycle: the original down suppressed,
one injected replay carrying the captured attributes, the echoed down and
the up forwarded. -/
def tapObs (f0 t0 x0 fE tE xE fU tU xU : Nat) : List Obs :=
  [Obs.suppressed WM_KEYDOWN
     { vkCode := 0x5b, scanCode := 0x5b, flags := f0, time := t0,
       dwExtraInfo := x0 },
   Obs.injected { type := INPUT_KEYBOARD
                  ki := { wVk := 0x5b, wScan := 0x5b
                          dwFlags := KEYEVENTF_EXTENDEDKEY
                          time := t0, dwExtraInfo := x0 } },
   Obs.forwarded WM_KEYDOWN
     { vkCode := 0x5b, scanCode := 0x5b, flags := fE, time := tE,
       dwExtraInfo := xE },
   Obs.forwarded WM_KEYUP
     { vkCode := 0x5b, scanCode := 0x5b, flags := fU, time := tU,
       dwExtraInfo := xU }]

/-- Running a concatenation splits into the two runs. -/
theorem run_append (a b : List SysEvent) :
    ∀ s : SysState, run s (a ++ b)
      = ((run s a).1 ++ (run (run s a).2 b).1, (run (run s a).2 b).2) := by
  induction a with
  | nil => intro s; simp [run]
  | cons e es ih => intro s; simp [run, ih]

/-- One tap cycle from any idle state with no outstanding timer produces
exactly `tapObs` and ends idle with no outstanding timer, the pending buffer
holding the captured down event and `TimerID` the (stale) handle. -/
theorem run_tapCycle (s : SysState) (f0 t0 x0 fE tE xE fU tU xU fresh : Nat)
    (h1 : s.data.KeyState = KeyboardState.NoEdgeIdle) (h2 : s.timers = [])
    (h3 : fresh ≠ 0) :
    run s (tapCycle f0 t0 x0 fE tE xE fU tU xU fresh)
      = (tapObs f0 t0 x0 fE tE xE fU tU xU,
         { data := { LastKey := { type := INPUT_KEYBOARD
                                  ki := { wVk := 0x5b, wScan := 0x5b
                                          dwFlags := KEYEVENTF_EXTENDEDKEY
                                          time := t0, dwExtraInfo := x0 } }
                     TimerID := fresh
                     Timeout := s.data.Timeout
                     KeyState := KeyboardState.NoEdgeIdle }
           timers := [] }) := by
  obtain ⟨⟨lk, tid, tmo, ks⟩, tms⟩ := s
  have hks : ks = KeyboardState.NoEdgeIdle := h1
  have htms : tms = [] := h2
  subst hks htms
  simp [run, sysStep, tapCycle, tapDown, tapUp, tapObs, NoEdgeKeyboardHook,
        ignoreCaseBody, SetTimer, KillTimer, timerFire, NoEdgeWindowsKeyTimeout,
        HC_ACTION, WM_KEYDOWN, WM_KEYUP, INPUT_KEYBOARD, KEYEVENTF_EXTENDEDKEY,
        CallNextHookExResult, h3]

/-- C7: from any idle state with no outstanding timer, repeating the
solitary-tap cycle (trigger down, timeout elapses, echo of the injected
replay, trigger up) any number of times yields the same observable output
on every repetition — the per-cycle trace `tapObs` — and always returns the
machine to `NoEdgeIdle` with no outstanding timer. -/
theorem C7_tap_idempotent (f0 t0 x0 fE tE xE fU tU xU fresh : Nat)
    (h3 : fresh ≠ 0) :
    ∀ n : Nat, ∀ s : SysState,
      s.data.KeyState = KeyboardState.NoEdgeIdle → s.timers = [] →
      (run s (List.flatten (List.replicate n
          (tapCycle f0 t0 x0 fE tE xE fU tU xU fresh)))).1
        = List.flatten (List.replicate n (tapObs f0 t0 x0 fE tE xE fU tU xU))
      ∧ (run s (List.flatten (List.replicate n
          (tapCycle f0 t0 x0 fE tE xE fU tU xU fresh)))).2.data.KeyState
        = KeyboardState.NoEdgeIdle
      ∧ (run s (List.flatten (List.replicate n
          (tapCycle f0 t0 x0 fE tE xE fU tU xU fresh)))).2.timers = [] := by
  intro n
  induction n with
  | zero => intro s h1 h2; simp [run, h1, h2]
  | succ k ih =>
    intro s h1 h2
    simp only [List.replicate_succ, List.flatten_cons, run_append,
      run_tapCycle s f0 t0 x0 fE tE xE fU tU xU fresh h1 h2 h3]
    have ihs := ih
      ({ data := { LastKey := { type := INPUT_KEYBOARD
                                ki := { wVk := 0x5b, wScan := 0x5b
                                        dwFlags := KEYEVENTF_EXTENDEDKEY
                                        time := t0, dwExtraInfo := x0 } }
                   TimerID := fresh, Timeout := s.data.Timeout
                   KeyState := KeyboardState.NoEdgeIdle }
         timers := [] } : SysState) rfl rfl
    exact ⟨by rw [ihs.1], ihs.2.1, ihs.2.2⟩

/-- Witness for C7: two repetitions of the tap cycle from the freshly
attached state. -/
theorem C7_witness :
    (1 : Nat) ≠ 0
    ∧ (initialSysState none).data.KeyState = KeyboardState.NoEdgeIdle
    ∧ (initialSysState none).timers = []
    ∧ (run (initialSysState none) (List.flatten (List.replicate 2
        (tapCycle 0 1 2 0 3 4 0 5 6 1)))).1
      = List.flatten (List.replicate 2 (tapObs 0 1 2 0 3 4 0 5 6)) :=
  ⟨by decide, by decide, by decide,
   (C7_tap_idempotent 0 1 2 0 3 4 0 5 6 1 (by decide) 2 (initialSysState none)
      (by decide) (by decide)).1⟩
